import Mathlib

/-!
Verification of `convert_to_sqlite.py` (GNESTE repository).

Shallow embedding conventions:
* A pandas cell that may hold the missing marker (NaN) is an `Option`;
  `pd.isna cell` is `cell = none` / `Option.isNone`.
* Python `dict` (insertion-ordered, assignment replaces the value in place at
  the first occurrence of the key, otherwise appends) is an association list
  `List (String × α)` with the `upsert` operation below.
* Numeric cell values (prices) never take part in arithmetic in the source,
  so they are embedded as `Int`; `power`/`energy` are always the literal 0.0
  and are embedded as the literal `0 : Int`.
* Methods that mutate `self` become functions `DB → ... → DB`; `add_file`,
  which can raise, returns `DB × Option String` where `some msg` models an
  uncaught `Exception(msg)` raised before any mutation of `self` happened
  (in the source both `raise` statements occur before `add_dataframe`).
-/

set_option autoImplicit false

namespace GNESTE

universe u

/-- Python-dict assignment `m[k] = v` on an insertion-ordered association
list: replace the value in place at the (first) occurrence of `k`,
otherwise append `(k, v)` at the end. -/
def upsert {α : Type u} : List (String × α) → String → α → List (String × α)
  | [], k, v => [(k, v)]
  | p :: rest, k, v => if p.1 = k then (k, v) :: rest else p :: upsert rest k v

/-- Python-dict lookup `m[k]` (as an option). -/
def lookup? {α : Type u} : List (String × α) → String → Option α
  | [], _ => none
  | p :: rest, k => if p.1 = k then some p.2 else lookup? rest k

/-- `k in m` for the dict model. -/
def containsKey {α : Type u} (m : List (String × α)) (k : String) : Bool :=
  (lookup? m k).isSome

/-- `dict.values()` in insertion order (what
`pd.DataFrame.from_dict(..., orient='index')` rows are built from). -/
def dictValues {α : Type u} (m : List (String × α)) : List α :=
  m.map (fun p => p.2)

/-- Python `s.endswith(suffix)`: the suffix's code points are a suffix of
the string's code points. -/
def endswith (s suffix : String) : Bool :=
  List.isSuffixOf suffix.data s.data

/-- `Country` dataclass (src lines 9-23). `__init__` substitutes the country
name for a missing ISO2/ISO3 cell. -/
structure Country where
  name : String
  ISO2 : String
  ISO3 : String
  continent : String
deriving DecidableEq, Repr

/-- `Country.__init__(name, ISO2, ISO3, continent)` (src lines 16-20):
`self.ISO2 = name if pd.isna(ISO2) else ISO2`, likewise for ISO3. -/
def Country.make (name : String) (iso2 iso3 : Option String) (continent : String) : Country :=
  { name := name
    ISO2 := match iso2 with | none => name | some s => s
    ISO3 := match iso3 with | none => name | some s => s
    continent := continent }

/-- `Country.key` (src lines 22-23). -/
def Country.key (c : Country) : String := c.ISO3

/-- `Technology` dataclass (src lines 26-33). -/
structure Technology where
  name : String
  ID : String
  category : String
deriving DecidableEq, Repr

/-- `Technology.key` (src lines 32-33). -/
def Technology.key (t : Technology) : String := t.name

/-- `Variable` dataclass (src lines 36-43). -/
structure Variable where
  name : String
  short_name : String
  unit : String
deriving DecidableEq, Repr

/-- `Variable.key` (src lines 42-43). -/
def Variable.key (v : Variable) : String := v.name

/-- Models `uuid4().hex` as evaluated ONCE when the `Entry` dataclass body is
executed (src line 58): a Python dataclass field default is a single value
shared by every construction that omits the field. The concrete hex digits
are irrelevant; what matters is that it is one fixed value. -/
def entry_key_default : String := "9f3a2b1c0d4e5f60718293a4b5c6d7e8"

/-- `Entry` dataclass (src lines 46-61). The reference fields are typed
`Technology | str` etc. in the source: during ingestion they hold entity
objects, and `save_sqlite` rebuilds entries holding key strings, so the
structure is parametric in the three reference types. -/
structure Entry (T C V : Type) where
  technology : T
  country : C
  variable_ : V
  power : Int
  energy : Int
  source : String
  notes : String
  currency : String
  year : Int
  price : Int
  _key : String
deriving DecidableEq, Repr

/-- `Entry.key` (src lines 60-61). -/
def Entry.key {T C V : Type} (e : Entry T C V) : String := e._key

/-- One source row: the mapping from the fixed column names to their cells,
plus `prices year = row[year]` for the numeric (year) columns. ISO2/ISO3 and
year cells can be missing (`pd.isna`). -/
structure Row where
  Technology : String
  ID : String
  Category : String
  Country : String
  ISO2 : Option String
  ISO3 : Option String
  Continent : String
  Variable : String
  Code : String
  Unit : String
  Source : String
  Notes : String
  Currency : String
  prices : Int → Option Int

/-- A parsed tabular file as the external pandas adapter delivers it:
`years` is `[int(x) for x in df.columns.values if isinstance(x, (int, float))]`
(src line 121; it depends only on the columns, so it is the same list on
every row iteration), `rows` the rows of `df.iterrows()` in order. -/
structure DataFrame where
  years : List Int
  rows : List Row

/-- The `DB` class state (src lines 64-69). -/
structure DB where
  countries : List (String × Country)
  technologies : List (String × Technology)
  variables_ : List (String × Variable)
  entries : List (Entry Technology Country Variable)
deriving DecidableEq

/-- `DB.__init__` (src lines 65-69). -/
def DB.empty : DB :=
  { countries := [], technologies := [], variables_ := [], entries := [] }

/-- `DB.add_country` (src lines 71-77): `self.countries[country.key()] = country`. -/
def DB.add_country (db : DB) (country : Country) : DB :=
  { db with countries := upsert db.countries country.key country }

/-- `DB.add_technology` (src lines 79-85). -/
def DB.add_technology (db : DB) (technology : Technology) : DB :=
  { db with technologies := upsert db.technologies technology.key technology }

/-- `DB.add_variable` (src lines 87-93). -/
def DB.add_variable (db : DB) (variable_ : Variable) : DB :=
  { db with variables_ := upsert db.variables_ variable_.key variable_ }

/-- `DB.add_entry` (src lines 95-101): `self.entries.append(entry)`. -/
def DB.add_entry (db : DB) (entry : Entry Technology Country Variable) : DB :=
  { db with entries := db.entries ++ [entry] }

/-- The Technology candidate built from one row (src line 110). -/
def rowTech (row : Row) : Technology :=
  { name := row.Technology, ID := row.ID, category := row.Category }

/-- The Country candidate built from one row (src line 111). -/
def rowCountry (row : Row) : Country :=
  Country.make row.Country row.ISO2 row.ISO3 row.Continent

/-- The Variable candidate built from one row (src line 112). -/
def rowVar (row : Row) : Variable :=
  { name := row.Variable, short_name := row.Code, unit := row.Unit }

/-- The Entry constructed for one (row, year) pair with a non-missing price
(src lines 128-137); `_key` is omitted at the call site, so it takes the
shared dataclass default. -/
def mkEntry (row : Row) (year : Int) (price : Int) : Entry Technology Country Variable :=
  { technology := rowTech row
    country := rowCountry row
    variable_ := rowVar row
    power := 0
    energy := 0
    source := row.Source
    notes := row.Notes
    currency := row.Currency
    year := year
    price := price
    _key := entry_key_default }

/-- The body of the inner `for year in years` loop (src lines 123-139):
`if not pd.isna(price): self.add_entry(...)`. -/
def yearStep (row : Row) (d : DB) (year : Int) : DB :=
  match row.prices year with
  | some price => d.add_entry (mkEntry row year price)
  | none => d

/-- The body of the `for i, row in df.iterrows()` loop of `DB.add_dataframe`
(src lines 108-139): build the three candidates, upsert them, then for every
year column append one entry when the price cell is not NaN. -/
def processRow (db : DB) (years : List Int) (row : Row) : DB :=
  let db1 := db.add_technology (rowTech row)
  let db2 := db1.add_country (rowCountry row)
  let db3 := db2.add_variable (rowVar row)
  years.foldl (yearStep row) db3

/-- `DB.add_dataframe` (src lines 103-139). -/
def DB.add_dataframe (db : DB) (df : DataFrame) : DB :=
  df.rows.foldl (fun d row => processRow d df.years row) db

/-- The external world `DB.add_file` interacts with: `os.path.exists`, and
the pandas readers (`pd.read_csv` with its skiprows/header arguments, and
`pd.read_excel` with sheet "Data") as opaque parsers from path to DataFrame. -/
structure FileSystem where
  path_exists : String → Bool
  read_csv : String → DataFrame
  read_excel : String → DataFrame

/-- `DB.add_file` (src lines 141-156). A returned `some msg` is an uncaught
`Exception(msg)`; both raises happen before `add_dataframe` runs, so the
returned state is the unchanged `db` in the error cases. -/
def DB.add_file (db : DB) (fs : FileSystem) (file_name : String) : DB × Option String :=
  if fs.path_exists file_name then
    if endswith file_name ".csv" then
      (db.add_dataframe (fs.read_csv file_name), none)
    else if endswith file_name ".xlsx" then
      (db.add_dataframe (fs.read_excel file_name), none)
    else
      (db, some "File type not supported")
  else
    (db, some "File not exist")

/-- The destination-name fixup at the top of `DB.save_sqlite`
(src lines 163-164). -/
def sqliteFileName (file_name : String) : String :=
  if endswith file_name ".sqlite" then file_name else file_name ++ ".sqlite"

/-- The per-fact rewrite of `save_sqlite` (src lines 170-179): a fresh
`Entry` whose reference fields are the entities' `.key()` strings; `_key` is
again omitted, so it takes the shared dataclass default. -/
def exportEntry (e : Entry Technology Country Variable) : Entry String String String :=
  { technology := e.technology.key
    country := e.country.key
    variable_ := e.variable_.key
    power := e.power
    energy := e.energy
    source := e.source
    notes := e.notes
    currency := e.currency
    year := e.year
    price := e.price
    _key := entry_key_default }

/-- The output artifact of `DB.save_sqlite` (src lines 158-188): the file
name actually opened and the four tables written, each table's rows in the
order the underlying container yields them (dict insertion order for the
dimension tables, list order for `entries`). -/
structure SqliteFile where
  file_name : String
  country : List Country
  vars : List Variable
  tech : List Technology
  entries : List (Entry String String String)
deriving DecidableEq

/-- `DB.save_sqlite` (src lines 158-188). `self` is only read: the rewritten
facts form the fresh list `entries2`, and `self.entries` is not touched, so
the function needs no post-state `DB`. -/
def DB.save_sqlite (db : DB) (file_name : String) : SqliteFile :=
  { file_name := sqliteFileName file_name
    country := dictValues db.countries
    vars := dictValues db.variables_
    tech := dictValues db.technologies
    entries := db.entries.map exportEntry }

/-- The driver loop over the file list (src lines 214-215) threaded with the
fail-fast exception model: the first raising `add_file` aborts the loop. -/
def DB.add_files (fs : FileSystem) : DB → List String → DB × Option String
  | db, [] => (db, none)
  | db, f :: rest =>
    match db.add_file fs f with
    | (db2, none) => DB.add_files fs db2 rest
    | (db2, some e) => (db2, some e)

/-- The whole `__main__` run (src lines 212-217) for a given file list and
destination: on an uncaught exception no output artifact is produced. -/
def run (fs : FileSystem) (files : List String) (dest : String) : Option SqliteFile :=
  match DB.add_files fs DB.empty files with
  | (db, none) => some (db.save_sqlite dest)
  | (_, some _) => none

/-- The facts one row contributes, in year-column order: one entry per year
column whose price cell is not missing. This is the specification-side
description the loop of `processRow` is proved equal to. -/
def rowFacts (years : List Int) (row : Row) : List (Entry Technology Country Variable) :=
  years.filterMap fun year => (row.prices year).map fun price => mkEntry row year price

/-- The facts one whole dataframe contributes: per-row lists concatenated in
row order. -/
def dfFacts (df : DataFrame) : List (Entry Technology Country Variable) :=
  (df.rows.map fun row => rowFacts df.years row).flatten

/-! ### Lemmas about the dict model -/

theorem lookup?_upsert {α : Type u} (m : List (String × α)) (k k' : String) (v : α) :
    lookup? (upsert m k v) k' = if k = k' then some v else lookup? m k' := by
  induction m with
  | nil => simp [upsert, lookup?]
  | cons p rest ih =>
    by_cases h : p.1 = k
    · by_cases h2 : k = k'
      · simp [upsert, lookup?, h, h2]
      · have hp : p.1 ≠ k' := by rw [h]; exact h2
        simp [upsert, lookup?, h, h2, hp]
    · by_cases h2 : p.1 = k'
      · have hk : k ≠ k' := by
          intro hkk
          exact h (by rw [hkk, h2])
        have hk2 : k' ≠ k := fun hkk => hk hkk.symm
        simp [upsert, lookup?, h, h2, hk, hk2]
      · simp [upsert, lookup?, h, h2, ih]

theorem upsert_upsert {α : Type u} (m : List (String × α)) (k : String) (a b : α) :
    upsert (upsert m k a) k b = upsert m k b := by
  induction m with
  | nil => simp [upsert]
  | cons p rest ih =>
    by_cases h : p.1 = k
    · simp [upsert, h]
    · simp [upsert, h, ih]

theorem containsKey_upsert_self {α : Type u} (m : List (String × α)) (k : String) (v : α) :
    containsKey (upsert m k v) k = true := by
  simp [containsKey, lookup?_upsert]

theorem containsKey_upsert_of {α : Type u} (m : List (String × α)) (k k' : String) (v : α)
    (h : containsKey m k' = true) : containsKey (upsert m k v) k' = true := by
  by_cases hk : k = k'
  · simp [containsKey, lookup?_upsert, hk]
  · simpa [containsKey, lookup?_upsert, hk] using h

/-! ### Decomposition of the row loop -/

theorem foldl_yearStep_entries (row : Row) (years : List Int) (d : DB) :
    (years.foldl (yearStep row) d).entries = d.entries ++ rowFacts years row := by
  induction years generalizing d with
  | nil => simp [rowFacts]
  | cons y ys ih =>
    cases h : row.prices y <;>
      simp [yearStep, h, ih, rowFacts, DB.add_entry, List.filterMap_cons]

theorem foldl_yearStep_countries (row : Row) (years : List Int) (d : DB) :
    (years.foldl (yearStep row) d).countries = d.countries := by
  induction years generalizing d with
  | nil => rfl
  | cons y ys ih => cases h : row.prices y <;> simp [yearStep, h, ih, DB.add_entry]

theorem foldl_yearStep_technologies (row : Row) (years : List Int) (d : DB) :
    (years.foldl (yearStep row) d).technologies = d.technologies := by
  induction years generalizing d with
  | nil => rfl
  | cons y ys ih => cases h : row.prices y <;> simp [yearStep, h, ih, DB.add_entry]

theorem foldl_yearStep_variables (row : Row) (years : List Int) (d : DB) :
    (years.foldl (yearStep row) d).variables_ = d.variables_ := by
  induction years generalizing d with
  | nil => rfl
  | cons y ys ih => cases h : row.prices y <;> simp [yearStep, h, ih, DB.add_entry]

theorem processRow_entries (db : DB) (years : List Int) (row : Row) :
    (processRow db years row).entries = db.entries ++ rowFacts years row := by
  simp [processRow, foldl_yearStep_entries,
    DB.add_technology, DB.add_country, DB.add_variable]

theorem processRow_countries (db : DB) (years : List Int) (row : Row) :
    (processRow db years row).countries
      = upsert db.countries (rowCountry row).key (rowCountry row) := by
  simp [processRow, foldl_yearStep_countries,
    DB.add_technology, DB.add_country, DB.add_variable]

theorem processRow_technologies (db : DB) (years : List Int) (row : Row) :
    (processRow db years row).technologies
      = upsert db.technologies (rowTech row).key (rowTech row) := by
  simp [processRow, foldl_yearStep_technologies,
    DB.add_technology, DB.add_country, DB.add_variable]

theorem processRow_variables (db : DB) (years : List Int) (row : Row) :
    (processRow db years row).variables_
      = upsert db.variables_ (rowVar row).key (rowVar row) := by
  simp [processRow, foldl_yearStep_variables,
    DB.add_technology, DB.add_country, DB.add_variable]

theorem rowFacts_length (years : List Int) (row : Row) :
    (rowFacts years row).length
      = (years.filter fun y => (row.prices y).isSome).length := by
  induction years with
  | nil => rfl
  | cons y ys ih =>
    cases h : row.prices y <;>
      simp [rowFacts, List.filterMap_cons, List.filter_cons, h] <;>
      simpa [rowFacts] using ih

/-! ### Claim theorems (first batch) -/

/-- Claim C1: processing one row appends exactly K facts, where K is the
number of year columns whose price cell is non-missing (zero when all are
missing), and performs exactly one upsert into each of the three dimension
dicts — the resulting dicts are exactly one `upsert` applied to the old
ones, independently of K. -/
theorem C1_row_fanout (db : DB) (years : List Int) (row : Row) :
    (processRow db years row).entries.length
        = db.entries.length + (years.filter fun y => (row.prices y).isSome).length ∧
    (processRow db years row).technologies
        = upsert db.technologies (rowTech row).key (rowTech row) ∧
    (processRow db years row).countries
        = upsert db.countries (rowCountry row).key (rowCountry row) ∧
    (processRow db years row).variables_
        = upsert db.variables_ (rowVar row).key (rowVar row) := by
  refine ⟨?_, processRow_technologies db years row,
    processRow_countries db years row, processRow_variables db years row⟩
  rw [processRow_entries]
  simp [rowFacts_length]

/-- Claim C3: dimension upserts are last-write-wins — storing `a` then `b`
under the same derived natural key leaves the same registry state as storing
only `b` (for countries, technologies and variables alike), and after two
technologies with the same name the dict holds the second record (hence its
category). -/
theorem C3_last_write_wins (db : DB)
    (a b : Country) (hc : a.key = b.key)
    (t1 t2 : Technology) (ht : t1.name = t2.name)
    (v1 v2 : Variable) (hv : v1.name = v2.name) :
    (db.add_country a).add_country b = db.add_country b ∧
    (db.add_technology t1).add_technology t2 = db.add_technology t2 ∧
    (db.add_variable v1).add_variable v2 = db.add_variable v2 ∧
    lookup? ((db.add_technology t1).add_technology t2).technologies t2.name
      = some t2 := by
  refine ⟨?_, ?_, ?_, ?_⟩
  · simp [DB.add_country, hc, upsert_upsert]
  · simp [DB.add_technology, Technology.key, ht, upsert_upsert]
  · simp [DB.add_variable, Variable.key, hv, upsert_upsert]
  · simp [DB.add_technology, Technology.key, ht, upsert_upsert, lookup?_upsert]

/-- Claim C3 witness: two technologies named "Solar PV" with different
categories; the registry keeps exactly the second record. -/
theorem C3_last_write_wins_witness :
    (DB.empty.add_technology ⟨"Solar PV", "T1", "old"⟩).add_technology
        ⟨"Solar PV", "T1", "new"⟩
      = DB.empty.add_technology ⟨"Solar PV", "T1", "new"⟩ ∧
    lookup?
        ((DB.empty.add_technology ⟨"Solar PV", "T1", "old"⟩).add_technology
          ⟨"Solar PV", "T1", "new"⟩).technologies "Solar PV"
      = some ⟨"Solar PV", "T1", "new"⟩ := by
  have h := C3_last_write_wins DB.empty
    ⟨"ES", "ES", "ESP", "EU"⟩ ⟨"Spain", "ES", "ESP", "EU"⟩ rfl
    ⟨"Solar PV", "T1", "old"⟩ ⟨"Solar PV", "T1", "new"⟩ rfl
    ⟨"LCOE", "L", "USD"⟩ ⟨"LCOE", "L2", "USD"⟩ rfl
  exact ⟨h.2.1, h.2.2.2⟩

/-- Claim C4: `Country` construction substitutes the country name for a
missing ISO2 or ISO3 cell; a stored ISO field is always either the given
cell value or the name (never a missing marker), and construction is total. -/
theorem C4_iso_fallback (name : String) (iso2 iso3 : Option String) (continent : String) :
    (Country.make name none iso3 continent).ISO2 = name ∧
    (Country.make name iso2 none continent).ISO3 = name ∧
    ((Country.make name iso2 iso3 continent).ISO2 = name ∨
      ∃ s, iso2 = some s ∧ (Country.make name iso2 iso3 continent).ISO2 = s) ∧
    ((Country.make name iso2 iso3 continent).ISO3 = name ∨
      ∃ s, iso3 = some s ∧ (Country.make name iso2 iso3 continent).ISO3 = s) := by
  refine ⟨rfl, rfl, ?_, ?_⟩
  · cases iso2 with
    | none => exact Or.inl rfl
    | some s => exact Or.inr ⟨s, rfl, rfl⟩
  · cases iso3 with
    | none => exact Or.inl rfl
    | some s => exact Or.inr ⟨s, rfl, rfl⟩

/-- Claim C8: `save_sqlite` appends ".sqlite" to a destination name that
does not already end with it, and uses a name already ending with it
unchanged. -/
theorem C8_destination_extension (db : DB) (file_name : String) :
    (endswith file_name ".sqlite" = false →
      (db.save_sqlite file_name).file_name = file_name ++ ".sqlite") ∧
    (endswith file_name ".sqlite" = true →
      (db.save_sqlite file_name).file_name = file_name) := by
  constructor
  · intro h
    simp [DB.save_sqlite, sqliteFileName, h]
  · intro h
    simp [DB.save_sqlite, sqliteFileName, h]

/-- Claim C8 witness: destination "GNESTE" gets the extension appended,
destination "GNESTE.sqlite" is used unchanged. -/
theorem C8_destination_extension_witness :
    (DB.empty.save_sqlite "GNESTE").file_name = "GNESTE.sqlite" ∧
    (DB.empty.save_sqlite "GNESTE.sqlite").file_name = "GNESTE.sqlite" :=
  ⟨(C8_destination_extension DB.empty "GNESTE").1 (by decide),
   (C8_destination_extension DB.empty "GNESTE.sqlite").2 (by decide)⟩

/-! ### Decomposition of `add_dataframe` and the multi-file fold -/

theorem foldl_processRow_entries (years : List Int) (rows : List Row) (db : DB) :
    ((rows.foldl (fun d row => processRow d years row) db)).entries
      = db.entries ++ (rows.map fun row => rowFacts years row).flatten := by
  induction rows generalizing db with
  | nil => simp
  | cons r rs ih => simp [ih, processRow_entries, List.append_assoc]

theorem add_dataframe_entries (db : DB) (df : DataFrame) :
    (db.add_dataframe df).entries = db.entries ++ dfFacts df := by
  simp [DB.add_dataframe, dfFacts, foldl_processRow_entries]

theorem foldl_add_dataframe_entries (dfs : List DataFrame) (db : DB) :
    (dfs.foldl DB.add_dataframe db).entries
      = db.entries ++ (dfs.map dfFacts).flatten := by
  induction dfs generalizing db with
  | nil => simp
  | cons d ds ih => simp [ih, add_dataframe_entries, List.append_assoc]

/-! ### Referential-integrity development -/

/-- One fact's three reference keys all occur in the corresponding dimension
dicts of `db`. -/
def entryRefsOk (db : DB) (e : Entry Technology Country Variable) : Bool :=
  containsKey db.technologies e.technology.key &&
  containsKey db.countries e.country.key &&
  containsKey db.variables_ e.variable_.key

/-- Every collected fact's reference keys resolve in the dimension dicts. -/
def refIntegrity (db : DB) : Bool :=
  db.entries.all (entryRefsOk db)

/-- Every dimension dict stores each record under that record's own derived
natural key. -/
def dimsWellKeyed (db : DB) : Bool :=
  (db.technologies.all fun p => p.2.key == p.1) &&
  (db.countries.all fun p => p.2.key == p.1) &&
  (db.variables_.all fun p => p.2.key == p.1)

/-- Every exported fact's foreign-key strings match a row of the
corresponding exported dimension table. -/
def exportRefsOk (out : SqliteFile) : Bool :=
  out.entries.all fun e =>
    (out.tech.any fun t => t.key == e.technology) &&
    (out.country.any fun c => c.key == e.country) &&
    (out.vars.any fun v => v.key == e.variable_)

theorem mem_rowFacts (years : List Int) (row : Row)
    (e : Entry Technology Country Variable) (he : e ∈ rowFacts years row) :
    e.technology = rowTech row ∧ e.country = rowCountry row ∧
      e.variable_ = rowVar row := by
  rw [rowFacts, List.mem_filterMap] at he
  obtain ⟨y, -, hy⟩ := he
  obtain ⟨price, -, hfe⟩ := Option.map_eq_some'.mp hy
  subst hfe
  exact ⟨rfl, rfl, rfl⟩

theorem processRow_refIntegrity (db : DB) (years : List Int) (row : Row)
    (h : refIntegrity db = true) : refIntegrity (processRow db years row) = true := by
  rw [refIntegrity, List.all_eq_true]
  intro e he
  rw [processRow_entries, List.mem_append] at he
  simp only [entryRefsOk, processRow_technologies, processRow_countries,
    processRow_variables, Bool.and_eq_true]
  rcases he with he | he
  · rw [refIntegrity, List.all_eq_true] at h
    have hh := h e he
    simp only [entryRefsOk, Bool.and_eq_true] at hh
    exact ⟨⟨containsKey_upsert_of _ _ _ _ hh.1.1,
      containsKey_upsert_of _ _ _ _ hh.1.2⟩,
      containsKey_upsert_of _ _ _ _ hh.2⟩
  · obtain ⟨h1, h2, h3⟩ := mem_rowFacts years row e he
    rw [h1, h2, h3]
    exact ⟨⟨containsKey_upsert_self _ _ _,
      containsKey_upsert_self _ _ _⟩,
      containsKey_upsert_self _ _ _⟩

theorem foldl_processRow_refIntegrity (years : List Int) (rows : List Row) (db : DB)
    (h : refIntegrity db = true) :
    refIntegrity (rows.foldl (fun d row => processRow d years row) db) = true := by
  induction rows generalizing db with
  | nil => exact h
  | cons r rs ih => exact ih _ (processRow_refIntegrity db years r h)

theorem add_dataframe_refIntegrity (db : DB) (df : DataFrame)
    (h : refIntegrity db = true) : refIntegrity (db.add_dataframe df) = true :=
  foldl_processRow_refIntegrity df.years df.rows db h

theorem foldl_add_dataframe_refIntegrity (dfs : List DataFrame) (db : DB)
    (h : refIntegrity db = true) :
    refIntegrity (dfs.foldl DB.add_dataframe db) = true := by
  induction dfs generalizing db with
  | nil => exact h
  | cons d ds ih => exact ih _ (add_dataframe_refIntegrity db d h)

theorem all_upsert {α : Type u} (p : String × α → Bool) (m : List (String × α))
    (k : String) (v : α) (hm : m.all p = true) (hv : p (k, v) = true) :
    (upsert m k v).all p = true := by
  induction m with
  | nil => simp [upsert, hv]
  | cons q rest ih =>
    simp only [List.all_cons, Bool.and_eq_true] at hm
    by_cases h : q.1 = k
    · simp [upsert, h, hv, hm.2]
    · simp [upsert, h, hm.1, ih hm.2]

theorem processRow_dimsWellKeyed (db : DB) (years : List Int) (row : Row)
    (h : dimsWellKeyed db = true) : dimsWellKeyed (processRow db years row) = true := by
  simp only [dimsWellKeyed, Bool.and_eq_true] at h ⊢
  obtain ⟨⟨ht, hc⟩, hv⟩ := h
  rw [processRow_technologies, processRow_countries, processRow_variables]
  exact ⟨⟨all_upsert _ _ _ _ ht (by simp),
    all_upsert _ _ _ _ hc (by simp)⟩,
    all_upsert _ _ _ _ hv (by simp)⟩

theorem foldl_processRow_dimsWellKeyed (years : List Int) (rows : List Row) (db : DB)
    (h : dimsWellKeyed db = true) :
    dimsWellKeyed (rows.foldl (fun d row => processRow d years row) db) = true := by
  induction rows generalizing db with
  | nil => exact h
  | cons r rs ih => exact ih _ (processRow_dimsWellKeyed db years r h)

theorem foldl_add_dataframe_dimsWellKeyed (dfs : List DataFrame) (db : DB)
    (h : dimsWellKeyed db = true) :
    dimsWellKeyed (dfs.foldl DB.add_dataframe db) = true := by
  induction dfs generalizing db with
  | nil => exact h
  | cons d ds ih => exact ih _ (foldl_processRow_dimsWellKeyed d.years d.rows db h)

theorem lookup?_mem {α : Type u} (m : List (String × α)) (k : String) (v : α)
    (h : lookup? m k = some v) : (k, v) ∈ m := by
  induction m with
  | nil => simp [lookup?] at h
  | cons p rest ih =>
    rw [lookup?] at h
    by_cases hp : p.1 = k
    · rw [if_pos hp] at h
      injection h with h2
      have hpv : p = (k, v) := by rw [← hp, ← h2]
      rw [← hpv]
      exact List.mem_cons_self p rest
    · rw [if_neg hp] at h
      exact List.mem_cons.mpr (Or.inr (ih h))

theorem values_any_of_containsKey {α : Type u} (m : List (String × α)) (k : String)
    (keyOf : α → String)
    (hwf : (m.all fun p => keyOf p.2 == p.1) = true)
    (hc : containsKey m k = true) :
    ((dictValues m).any fun v => keyOf v == k) = true := by
  rw [containsKey] at hc
  cases hl : lookup? m k with
  | none => rw [hl] at hc; simp at hc
  | some v =>
    have hmem := lookup?_mem m k v hl
    rw [List.all_eq_true] at hwf
    have hk := hwf _ hmem
    rw [List.any_eq_true]
    exact ⟨v, List.mem_map.mpr ⟨(k, v), hmem, rfl⟩, hk⟩

/-! ### Concrete sample inputs (used by counterexamples and witnesses) -/

/-- A concrete source row: prices recorded for year columns 2020 and 2021,
missing for every other year. -/
def sampleRow : Row :=
  { Technology := "Solar PV", ID := "T1", Category := "Solar"
    Country := "Spain", ISO2 := some "ES", ISO3 := some "ESP", Continent := "Europe"
    Variable := "CAPEX", Code := "C", Unit := "USD/kW"
    Source := "IEA", Notes := "", Currency := "USD"
    prices := fun y => if y = 2020 then some 100 else if y = 2021 then some 90 else none }

/-- A one-row dataframe whose numeric columns are 2020 and 2021. -/
def sampleDF : DataFrame := { years := [2020, 2021], rows := [sampleRow] }

/-- A dataframe with no rows. -/
def emptyDF : DataFrame := { years := [], rows := [] }

/-- A concrete file system: exactly "GNESTE_Coal_Power.xlsx" and "data.txt"
exist; both readers return an empty dataframe. -/
def sampleFS : FileSystem :=
  { path_exists := fun name => name == "GNESTE_Coal_Power.xlsx" || name == "data.txt"
    read_csv := fun _ => emptyDF
    read_excel := fun _ => emptyDF }

/-! ### Claim theorems (second batch) -/

/-- Claim C2: after any sequence of `add_dataframe` calls starting from the
fresh `DB`, every collected fact's technology/country/variable key is a key
of the corresponding dimension dict, and hence every foreign-key string of
the exported `entries` table matches a row of the corresponding exported
dimension table. -/
theorem C2_referential_integrity (dfs : List DataFrame) (dest : String) :
    refIntegrity (dfs.foldl DB.add_dataframe DB.empty) = true ∧
    exportRefsOk ((dfs.foldl DB.add_dataframe DB.empty).save_sqlite dest) = true := by
  have h1 := foldl_add_dataframe_refIntegrity dfs DB.empty rfl
  have hwf := foldl_add_dataframe_dimsWellKeyed dfs DB.empty rfl
  refine ⟨h1, ?_⟩
  rw [exportRefsOk, List.all_eq_true]
  intro e2 he2
  rw [DB.save_sqlite] at he2
  simp only [List.mem_map] at he2
  obtain ⟨e, hmem, hee⟩ := he2
  subst hee
  rw [refIntegrity, List.all_eq_true] at h1
  have h := h1 e hmem
  simp only [entryRefsOk, Bool.and_eq_true] at h
  simp only [dimsWellKeyed, Bool.and_eq_true] at hwf
  simp only [DB.save_sqlite, Bool.and_eq_true]
  exact ⟨⟨values_any_of_containsKey _ _ Technology.key hwf.1.1 h.1.1,
    values_any_of_containsKey _ _ Country.key hwf.1.2 h.1.2⟩,
    values_any_of_containsKey _ _ Variable.key hwf.2 h.2⟩

/-- Claim C5 fails on the code: `_key`'s dataclass default `uuid4().hex` is
evaluated once for the whole class, so the two distinct facts produced from
`sampleDF` (years 2020 and 2021) carry the identical identity token. -/
theorem C5_shared_default_key :
    (DB.empty.add_dataframe sampleDF).entries
        = [mkEntry sampleRow 2020 100, mkEntry sampleRow 2021 90] ∧
    mkEntry sampleRow 2020 100 ≠ mkEntry sampleRow 2021 90 ∧
    (mkEntry sampleRow 2020 100).key = (mkEntry sampleRow 2021 90).key :=
  ⟨by decide, by decide, rfl⟩

/-- Claim C6: `add_file` raises "File not exist" for a missing path and
"File type not supported" for an existing path with neither supported
extension; in both cases the `DB` state is returned untouched, and the
driver run aborts before producing any output artifact. -/
theorem C6_add_file_fail_fast (fs : FileSystem) (db : DB) (file_name : String)
    (rest : List String) (dest : String) :
    (fs.path_exists file_name = false →
      db.add_file fs file_name = (db, some "File not exist")) ∧
    (fs.path_exists file_name = true →
      endswith file_name ".csv" = false →
      endswith file_name ".xlsx" = false →
      db.add_file fs file_name = (db, some "File type not supported")) ∧
    ((DB.empty.add_file fs file_name).2.isSome = true →
      run fs (file_name :: rest) dest = none) := by
  refine ⟨?_, ?_, ?_⟩
  · intro h
    simp [DB.add_file, h]
  · intro h1 h2 h3
    simp [DB.add_file, h1, h2, h3]
  · intro h
    rcases hres : DB.empty.add_file fs file_name with ⟨db2, o⟩
    cases o with
    | none => rw [hres] at h; simp at h
    | some msg => simp [run, DB.add_files, hres]

/-- Claim C6 witness: under `sampleFS`, a missing .xlsx file raises the
missing-file error with the DB untouched and the run yields no artifact,
and the existing unsupported "data.txt" raises the format error with the
DB untouched. -/
theorem C6_add_file_fail_fast_witness :
    DB.empty.add_file sampleFS "missing.xlsx" = (DB.empty, some "File not exist") ∧
    DB.empty.add_file sampleFS "data.txt" = (DB.empty, some "File type not supported") ∧
    run sampleFS ["missing.xlsx"] "out" = none :=
  ⟨(C6_add_file_fail_fast sampleFS DB.empty "missing.xlsx" [] "out").1 (by decide),
   (C6_add_file_fail_fast sampleFS DB.empty "data.txt" [] "out").2.1
     (by decide) (by decide) (by decide),
   (C6_add_file_fail_fast sampleFS DB.empty "missing.xlsx" [] "out").2.2 (by decide)⟩

/-- Claim C7: `add_entry` always succeeds and appends at the end, and the
exported fact table is the collected list in order: the concatenation of
per-file (dataframe), per-row, per-year facts, with no deduplication or
reordering. -/
theorem C7_fifo_order (db : DB) (e : Entry Technology Country Variable)
    (dfs : List DataFrame) (dest : String) :
    (db.add_entry e).entries = db.entries ++ [e] ∧
    ((dfs.foldl DB.add_dataframe db).save_sqlite dest).entries
      = (db.entries ++ (dfs.map dfFacts).flatten).map exportEntry := by
  refine ⟨rfl, ?_⟩
  simp [DB.save_sqlite, foldl_add_dataframe_entries]

/-- Claim C9: the export rewrite replaces exactly the three reference
fields by the referenced entity's natural key and copies power, energy,
source, notes, currency, year and price unchanged; the exported list is a
fresh per-fact rewrite of the collected list (`save_sqlite` reads but never
writes the `DB`, which the embedding reflects by giving it no DB result). -/
theorem C9_export_rewrite_frame (db : DB) (dest : String) :
    (db.save_sqlite dest).entries = db.entries.map exportEntry ∧
    ∀ e : Entry Technology Country Variable,
      (exportEntry e).technology = e.technology.key ∧
      (exportEntry e).country = e.country.key ∧
      (exportEntry e).variable_ = e.variable_.key ∧
      (exportEntry e).power = e.power ∧
      (exportEntry e).energy = e.energy ∧
      (exportEntry e).source = e.source ∧
      (exportEntry e).notes = e.notes ∧
      (exportEntry e).currency = e.currency ∧
      (exportEntry e).year = e.year ∧
      (exportEntry e).price = e.price :=
  ⟨rfl, fun _ => ⟨rfl, rfl, rfl, rfl, rfl, rfl, rfl, rfl, rfl, rfl⟩⟩

/-- Claim C10: in `add_file` the existence check precedes the format check —
a non-existent path raises the missing-file error whatever its extension,
with the state untouched. -/
theorem C10_exists_before_format (fs : FileSystem) (db : DB) (file_name : String)
    (h : fs.path_exists file_name = false) :
    db.add_file fs file_name = (db, some "File not exist") := by
  simp [DB.add_file, h]

/-- Claim C10 witness: the non-existent "config.json" reports the
missing-file error, not the unsupported-format error. -/
theorem C10_exists_before_format_witness :
    DB.empty.add_file sampleFS "config.json" = (DB.empty, some "File not exist") :=
  C10_exists_before_format sampleFS DB.empty "config.json" (by decide)

end GNESTE
